import Mathlib

/-!
Shallow embedding of `src/dev_azure_reporter.py` (class `DevAzureReporter`
and the `__main__` dispatch).

The tool is a stateless HTTP client.  We model the remote service as an
environment `Env` that maps each request the script can issue to the
response the script observes:
  * a GET of one work item (used by `_read_value`),
  * a POST of a WIQL query (used by `_find_tasks`),
  * a PATCH of one work item (used by `report`).
Each computation returns the list of HTTP requests it issued, in order,
together with an `Outcome`: either `normal v` (the Python function
returned `v`) or `exited c` (the Python process called `exit(c)`).
Since the script builds every work-item URL with an f-string, responses
are keyed by the stringified task id.
-/

/-- The "op"/"path"/"value" object of the JSON-patch body built in `report`. -/
structure PatchOp where
  op : String
  path : String
  value : String
deriving DecidableEq, Repr

/-- One HTTP request issued by the script, keyed by the data that determines
the URL and body. -/
inductive Request where
  | get (task_id : String)
  | query (q : String)
  | patch (task_id : String) (body : PatchOp)
deriving DecidableEq, Repr

/-- Parsed JSON body of a 2xx GET response: `fields` is `none` when the JSON
object has no "fields" key, otherwise the field-name/value mapping. -/
structure GetBody where
  fields : Option (List (String × String))
deriving DecidableEq, Repr

/-- Response to the GET in `_read_value`: a connect timeout, any other
failure (non-2xx raised by `raise_for_status`, transport error, bad JSON),
or a 2xx with a parsed body. -/
inductive GetResp where
  | connectTimeout
  | failure
  | success (body : GetBody)
deriving DecidableEq, Repr

/-- Response to the WIQL POST in `_find_tasks`: timeout, other failure, or a
2xx whose `workItems` list carries the given ids. -/
inductive QueryResp where
  | connectTimeout
  | failure
  | success (ids : List Int)
deriving DecidableEq, Repr

/-- Response to the PATCH in `report`: timeout, other failure (including any
non-2xx status raised by `raise_for_status`), or a 2xx status code. -/
inductive PatchResp where
  | connectTimeout
  | failure
  | success (status : Nat)
deriving DecidableEq, Repr

/-- The remote service, as observed by one run of the script. -/
structure Env where
  getResp : String → GetResp
  queryResp : String → QueryResp
  patchResp : String → PatchResp

/-- Result of a modelled computation: `exited c` models `exit(c)`. -/
inductive Outcome (α : Type) where
  | exited (code : Nat)
  | normal (val : α)
deriving DecidableEq, Repr

/-- Module-level constant `GIT_PATH_MIN_LENGTH`. -/
def GIT_PATH_MIN_LENGTH : Nat := 10

/-- Module-level constant `TASKITEM_QUERY_LIMIT` (default result ceiling). -/
def TASKITEM_QUERY_LIMIT : Nat := 1

/-- The space character tested by the `" " in git_path` check. -/
def SPACE : Char := Char.ofNat 32

/-- The apostrophe used to quote the fragment inside the WIQL query. -/
def APOS : String := "\x27"

/-- `DevAzureReporter._git_path_is_valid`: requires a slash, no space
character, and length at least `GIT_PATH_MIN_LENGTH`. -/
def git_path_is_valid (git_path : String) : Bool :=
  if !(git_path.data.contains (Char.ofNat 47)) then false
  else if git_path.data.contains SPACE then false
  else if git_path.data.length < GIT_PATH_MIN_LENGTH then false
  else true

/-- The WIQL query text built in `_find_tasks` by verbatim substitution. -/
def build_query (query_field git_path : String) : String :=
  "Select [System.Id] From WorkItems Where [" ++ query_field ++ "] Contains "
    ++ APOS ++ git_path ++ APOS

/-- The extraction `rslt.json()["fields"][field_name]` under
`except KeyError: return ""`: a missing "fields" key or a missing field
name both yield the empty string. -/
def extract_field (body : GetBody) (field_name : String) : String :=
  match body.fields with
  | none => ""
  | some fields =>
    match fields.lookup field_name with
    | none => ""
    | some v => v

/-- `DevAzureReporter._read_value`: one GET; a connect timeout or any other
failure calls `exit(1)`; on 2xx the field value is extracted with the
KeyError-to-empty-string rule. -/
def read_value (env : Env) (task_id field_name : String) :
    List Request × Outcome String :=
  ([Request.get task_id],
   match env.getResp task_id with
   | GetResp.connectTimeout => Outcome.exited 1
   | GetResp.failure => Outcome.exited 1
   | GetResp.success body => Outcome.normal (extract_field body field_name))

/-- `DevAzureReporter._find_tasks`: validity guard before any request, then
one WIQL POST; timeout or failure calls `exit(1)`; a result count above the
ceiling calls `exit(1)`; zero matches is only reported. -/
def find_tasks (env : Env) (taskitem_query_limit : Nat)
    (query_field git_path : String) : List Request × Outcome (List Int) :=
  if !(git_path_is_valid git_path) then ([], Outcome.exited 1)
  else
    let q := build_query query_field git_path
    ([Request.query q],
     match env.queryResp q with
     | QueryResp.connectTimeout => Outcome.exited 1
     | QueryResp.failure => Outcome.exited 1
     | QueryResp.success ids =>
       if ids.length > taskitem_query_limit then Outcome.exited 1
       else Outcome.normal ids)

/-- The separator literal used by the "add" branch of `report`. -/
def separator : String := "<br>==========<br>"

/-- `DevAzureReporter.report`: builds the JSON-patch body (calling
`_read_value` first only when the operation is "add"), then issues one
PATCH; a connect timeout calls `exit(1)`, any other failure returns 1,
a 2xx returns 0. -/
def report (env : Env) (task_id field_name value operation : String) :
    List Request × Outcome Nat :=
  let valRes : List Request × Outcome String :=
    if operation = "add" then
      match read_value env task_id field_name with
      | (tr, Outcome.exited c) => (tr, Outcome.exited c)
      | (tr, Outcome.normal old) =>
        (tr, Outcome.normal (old ++ separator ++ value))
    else ([], Outcome.normal value)
  match valRes with
  | (tr, Outcome.exited c) => (tr, Outcome.exited c)
  | (tr, Outcome.normal v) =>
    (tr ++ [Request.patch task_id ⟨operation, "/fields/" ++ field_name, v⟩],
     match env.patchResp task_id with
     | PatchResp.connectTimeout => Outcome.exited 1
     | PatchResp.failure => Outcome.normal 1
     | PatchResp.success _ => Outcome.normal 0)

/-- The list comprehension `[self.report(task_id, ...) for task_id in task_ids]`:
sequential, and an `exit(1)` inside `report` stops the whole comprehension. -/
def run_reports (env : Env) (field_name value operation : String) :
    List Int → List Request × Outcome (List Nat)
  | [] => ([], Outcome.normal [])
  | id :: rest =>
    match report env (toString id) field_name value operation with
    | (tr, Outcome.exited c) => (tr, Outcome.exited c)
    | (tr, Outcome.normal r) =>
      match run_reports env field_name value operation rest with
      | (tr2, Outcome.exited c) => (tr ++ tr2, Outcome.exited c)
      | (tr2, Outcome.normal rs) => (tr ++ tr2, Outcome.normal (r :: rs))

/-- The Python test `set(results) == {0}`: true exactly when `results`
contains 0 and every element equals 0 (false for the empty list). -/
def set_eq_singleton_zero (results : List Nat) : Bool :=
  results.contains 0 && results.all (fun r => r == 0)

/-- `DevAzureReporter.report_batch`: resolve ids with `_find_tasks`, patch
each resolved id in order, and return 0 iff `set(results) == {0}`. -/
def report_batch (env : Env) (taskitem_query_limit : Nat)
    (query_field git_path field_name value operation : String) :
    List Request × Outcome Nat :=
  match find_tasks env taskitem_query_limit query_field git_path with
  | (tr, Outcome.exited c) => (tr, Outcome.exited c)
  | (tr, Outcome.normal ids) =>
    match run_reports env field_name value operation ids with
    | (tr2, Outcome.exited c) => (tr ++ tr2, Outcome.exited c)
    | (tr2, Outcome.normal results) =>
      (tr ++ tr2,
       Outcome.normal (if set_eq_singleton_zero results then 0 else 1))

/-- The optional command-line arguments that select the mode, plus the
required field arguments (`argparse` yields `None` for an omitted optional
argument, modelled as `none`). -/
structure Args where
  task_id : Option String
  git_path : Option String
  filter_by : Option String
  task_limit : Nat
  field_name : String
  field_value : String
  operation : String

/-- Python truthiness of an `argparse` string option: `None` and the empty
string are falsy. -/
def py_truthy : Option String → Bool
  | none => false
  | some s => !(s == "")

/-- The `__main__` dispatch: single-id mode when `task_id` is truthy and
both filter arguments are `None` (the chained comparison
`filter_by == git_path == None`), batch mode when both filter arguments are
truthy and `task_id is None`, otherwise a usage message and exit code 1
with no reporter call.  The returned pair is (requests issued, process
exit code). -/
def main_run (env : Env) (args : Args) : List Request × Nat :=
  if py_truthy args.task_id
      && (args.filter_by == args.git_path && args.git_path == none) then
    match report env (args.task_id.getD "") args.field_name args.field_value
        args.operation with
    | (tr, Outcome.exited c) => (tr, c)
    | (tr, Outcome.normal r) => (tr, r)
  else if (py_truthy args.filter_by && py_truthy args.git_path)
      && args.task_id == none then
    match report_batch env args.task_limit (args.filter_by.getD "")
        (args.git_path.getD "") args.field_name args.field_value
        args.operation with
    | (tr, Outcome.exited c) => (tr, c)
    | (tr, Outcome.normal r) => (tr, r)
  else ([], 1)

/-! ### Helper lemmas -/

/-- The outcome of the PATCH try/except in `report`, as a function of the
response. -/
def patch_outcome (env : Env) (task_id : String) : Outcome Nat :=
  match env.patchResp task_id with
  | PatchResp.connectTimeout => Outcome.exited 1
  | PatchResp.failure => Outcome.normal 1
  | PatchResp.success _ => Outcome.normal 0

/-- The value `report` returns when the PATCH does not time out. -/
def patch_result (env : Env) (task_id : String) : Nat :=
  match env.patchResp task_id with
  | PatchResp.failure => 1
  | _ => 0

/-- Whitespace in the sense of the spec sentence "must contain no
whitespace" (any whitespace character, not only the space character). -/
def contains_whitespace (s : String) : Bool :=
  s.data.any Char.isWhitespace

/-- Single-id mode is selected on the command line. -/
def mode_id_supplied (args : Args) : Prop :=
  args.task_id ≠ none

/-- Batch mode is selected on the command line: both the filter field and
the fragment are supplied. -/
def mode_filter_supplied (args : Args) : Prop :=
  args.filter_by ≠ none ∧ args.git_path ≠ none

/-- Exactly one of the two modes is supplied. -/
def exactly_one_mode (args : Args) : Prop :=
  (mode_id_supplied args ∧ ¬ mode_filter_supplied args)
    ∨ (mode_filter_supplied args ∧ ¬ mode_id_supplied args)

/-- A service where every GET succeeds with a body lacking the "fields"
key, every search returns zero ids, and every PATCH succeeds. -/
def env_empty_search : Env where
  getResp := fun _ => GetResp.success ⟨none⟩
  queryResp := fun _ => QueryResp.success []
  patchResp := fun _ => PatchResp.success 200

/-- A service whose search returns two ids; all requests succeed. -/
def env_two_matches : Env where
  getResp := fun _ => GetResp.success ⟨none⟩
  queryResp := fun _ => QueryResp.success [101, 102]
  patchResp := fun _ => PatchResp.success 200

/-- A service whose search returns three ids and whose PATCH of id 205
fails with a non-2xx status; everything else succeeds. -/
def env_batch_one_fail : Env where
  getResp := fun _ => GetResp.success ⟨none⟩
  queryResp := fun _ => QueryResp.success [101, 205, 310]
  patchResp := fun s => if s = "205" then PatchResp.failure
    else PatchResp.success 200

/-- A service whose search returns three ids and whose PATCH of id 205
hits a connect timeout; everything else succeeds. -/
def env_patch_timeout : Env where
  getResp := fun _ => GetResp.success ⟨none⟩
  queryResp := fun _ => QueryResp.success [101, 205, 310]
  patchResp := fun s => if s = "205" then PatchResp.connectTimeout
    else PatchResp.success 200

/-- A service whose GET responses carry a fields mapping that holds only
the field "Other.Field"; everything succeeds. -/
def env_get_absent : Env where
  getResp := fun _ => GetResp.success ⟨some [("Other.Field", "x")]⟩
  queryResp := fun _ => QueryResp.success []
  patchResp := fun _ => PatchResp.success 200

/-- A service whose GET responses hold the value "old text" for the field
"Custom.Log"; everything succeeds. -/
def env_get_old : Env where
  getResp := fun _ => GetResp.success ⟨some [("Custom.Log", "old text")]⟩
  queryResp := fun _ => QueryResp.success []
  patchResp := fun _ => PatchResp.success 200

/-- Arguments that supply both an explicit task id and the filter pair. -/
def args_both_modes : Args :=
  ⟨some "4242", some "repo/branch", some "Custom.Branch", 1, "fld", "v",
   "replace"⟩

theorem patch_outcome_of_ne_timeout {env : Env} {task_id : String}
    (h : env.patchResp task_id ≠ PatchResp.connectTimeout) :
    patch_outcome env task_id = Outcome.normal (patch_result env task_id) := by
  unfold patch_outcome patch_result
  cases henv : env.patchResp task_id <;> simp_all

theorem report_of_ne_add (env : Env) (task_id field_name value operation : String)
    (hop : operation ≠ "add") :
    report env task_id field_name value operation
      = ([Request.patch task_id ⟨operation, "/fields/" ++ field_name, value⟩],
         patch_outcome env task_id) := by
  simp [report, hop, patch_outcome]

theorem report_of_add (env : Env) (task_id field_name value : String)
    {b : GetBody} (hb : env.getResp task_id = GetResp.success b) :
    report env task_id field_name value "add"
      = ([Request.get task_id,
          Request.patch task_id
            ⟨"add", "/fields/" ++ field_name,
             extract_field b field_name ++ separator ++ value⟩],
         patch_outcome env task_id) := by
  simp [report, read_value, hb, patch_outcome]


theorem report_spec (env : Env) (task_id field_name value operation : String)
    (hget : operation = "add" → ∃ b, env.getResp task_id = GetResp.success b) :
    (report env task_id field_name value operation).2 = patch_outcome env task_id ∧
    ∃ pv, Request.patch task_id ⟨operation, "/fields/" ++ field_name, pv⟩
            ∈ (report env task_id field_name value operation).1 := by
  by_cases hop : operation = "add"
  · obtain ⟨b, hb⟩ := hget hop
    subst hop
    rw [report_of_add env task_id field_name value hb]
    exact ⟨rfl, extract_field b field_name ++ separator ++ value, by simp⟩
  · rw [report_of_ne_add env task_id field_name value operation hop]
    exact ⟨rfl, value, by simp⟩

theorem run_reports_normal (env : Env) (field_name value operation : String)
    (ids : List Int)
    (hget : operation = "add" →
      ∀ id ∈ ids, ∃ b, env.getResp (toString id) = GetResp.success b)
    (hnt : ∀ id ∈ ids, env.patchResp (toString id) ≠ PatchResp.connectTimeout) :
    (run_reports env field_name value operation ids).2
        = Outcome.normal (ids.map (fun id => patch_result env (toString id))) ∧
    ∀ id ∈ ids, ∃ b, Request.patch (toString id) b
        ∈ (run_reports env field_name value operation ids).1 := by
  induction ids with
  | nil => simp [run_reports]
  | cons i rest ih =>
    have hnt_i := hnt i (List.mem_cons_self i rest)
    obtain ⟨hsnd, pv, hpv⟩ := report_spec env (toString i) field_name value
      operation (fun h => hget h i (List.mem_cons_self i rest))
    rw [patch_outcome_of_ne_timeout hnt_i] at hsnd
    obtain ⟨ihsnd, ihmem⟩ := ih
      (fun h id hid => hget h id (List.mem_cons_of_mem i hid))
      (fun id hid => hnt id (List.mem_cons_of_mem i hid))
    rcases hr : report env (toString i) field_name value operation with ⟨tr, out⟩
    rcases hrr : run_reports env field_name value operation rest with ⟨tr2, out2⟩
    rw [hr] at hsnd hpv
    rw [hrr] at ihsnd ihmem
    simp only at hsnd ihsnd hpv
    subst hsnd
    subst ihsnd
    constructor
    · simp [run_reports, hr, hrr]
    · intro id hid
      rcases List.mem_cons.1 hid with hid | hid
      · subst hid
        exact ⟨⟨operation, "/fields/" ++ field_name, pv⟩,
          by simp [run_reports, hr, hrr]; exact Or.inl hpv⟩
      · obtain ⟨b, hb⟩ := ihmem id hid
        exact ⟨b, by simp [run_reports, hr, hrr]; exact Or.inr hb⟩

theorem run_reports_exits (env : Env) (field_name value operation : String)
    (pre : List Int) (i : Int) (post : List Int)
    (hget : operation = "add" →
      ∀ id ∈ pre ++ i :: post, ∃ b, env.getResp (toString id) = GetResp.success b)
    (hpre : ∀ j ∈ pre, env.patchResp (toString j) ≠ PatchResp.connectTimeout)
    (hi : env.patchResp (toString i) = PatchResp.connectTimeout) :
    (run_reports env field_name value operation (pre ++ i :: post)).2
      = Outcome.exited 1 := by
  induction pre with
  | nil =>
    obtain ⟨hsnd, _⟩ := report_spec env (toString i) field_name value operation
      (fun h => hget h i (by simp))
    rcases hr : report env (toString i) field_name value operation with ⟨tr, out⟩
    rw [hr] at hsnd
    simp only [patch_outcome, hi] at hsnd
    subst hsnd
    simp [run_reports, hr]
  | cons j pre ih =>
    have hnt_j := hpre j (List.mem_cons_self j pre)
    obtain ⟨hsnd, _⟩ := report_spec env (toString j) field_name value operation
      (fun h => hget h j (by simp))
    rw [patch_outcome_of_ne_timeout hnt_j] at hsnd
    rcases hr : report env (toString j) field_name value operation with ⟨tr, out⟩
    rw [hr] at hsnd
    simp only at hsnd
    subst hsnd
    have ih2 := ih
      (fun h id hid => hget h id (by simp at hid ⊢; tauto))
      (fun id hid => hpre id (List.mem_cons_of_mem j hid))
    rcases hrr : run_reports env field_name value operation (pre ++ i :: post)
      with ⟨tr2, out2⟩
    rw [hrr] at ih2
    simp only at ih2
    subst ih2
    simp [run_reports, hr, hrr]

theorem find_tasks_success (env : Env) (limit : Nat) (qf frag : String)
    (ids : List Int)
    (hvalid : git_path_is_valid frag = true)
    (hq : env.queryResp (build_query qf frag) = QueryResp.success ids)
    (hlim : ids.length ≤ limit) :
    find_tasks env limit qf frag
      = ([Request.query (build_query qf frag)], Outcome.normal ids) := by
  simp only [find_tasks, hvalid, Bool.not_true, Bool.false_eq_true, if_false, hq]
  rw [if_neg (by omega)]

theorem find_tasks_over_limit (env : Env) (limit : Nat) (qf frag : String)
    (ids : List Int)
    (hvalid : git_path_is_valid frag = true)
    (hq : env.queryResp (build_query qf frag) = QueryResp.success ids)
    (hover : ids.length > limit) :
    find_tasks env limit qf frag
      = ([Request.query (build_query qf frag)], Outcome.exited 1) := by
  simp only [find_tasks, hvalid, Bool.not_true, Bool.false_eq_true, if_false, hq]
  rw [if_pos (by omega)]

theorem set_eq_singleton_zero_iff (results : List Nat) :
    set_eq_singleton_zero results = true
      ↔ results ≠ [] ∧ ∀ r ∈ results, r = 0 := by
  unfold set_eq_singleton_zero
  rw [Bool.and_eq_true, List.all_eq_true]
  constructor
  · rintro ⟨h0, hall⟩
    have h0m : (0 : Nat) ∈ results := by
      simpa using h0
    exact ⟨fun hnil => by simp [hnil] at h0m,
      fun r hr => by simpa using hall r hr⟩
  · rintro ⟨hne, hall⟩
    rcases results with - | ⟨r, rest⟩
    · exact absurd rfl hne
    · have hr0 : r = 0 := hall r (List.mem_cons_self r rest)
      exact ⟨by simp [hr0], fun x hx => by simpa using hall x hx⟩

theorem patch_result_eq_zero_iff {env : Env} {task_id : String}
    (h : env.patchResp task_id ≠ PatchResp.connectTimeout) :
    patch_result env task_id = 0
      ↔ ∃ s, env.patchResp task_id = PatchResp.success s := by
  unfold patch_result
  cases henv : env.patchResp task_id <;> simp_all

theorem report_batch_normal (env : Env) (limit : Nat)
    (query_field git_path field_name value operation : String)
    (ids : List Int)
    (hvalid : git_path_is_valid git_path = true)
    (hq : env.queryResp (build_query query_field git_path)
      = QueryResp.success ids)
    (hlim : ids.length ≤ limit)
    (hget : operation = "add" →
      ∀ id ∈ ids, ∃ b, env.getResp (toString id) = GetResp.success b)
    (hnt : ∀ id ∈ ids, env.patchResp (toString id) ≠ PatchResp.connectTimeout) :
    (report_batch env limit query_field git_path field_name value operation).2
        = Outcome.normal
            (if set_eq_singleton_zero
                (ids.map (fun id => patch_result env (toString id)))
             then 0 else 1) ∧
    ∀ id ∈ ids, ∃ b, Request.patch (toString id) b
        ∈ (report_batch env limit query_field git_path field_name value
            operation).1 := by
  have hft := find_tasks_success env limit query_field git_path ids hvalid hq hlim
  obtain ⟨hsnd, hmem⟩ := run_reports_normal env field_name value operation ids
    hget hnt
  rcases hrr : run_reports env field_name value operation ids with ⟨tr2, out2⟩
  rw [hrr] at hsnd hmem
  simp only at hsnd hmem
  subst hsnd
  constructor
  · simp [report_batch, hft, hrr]
  · intro id hid
    obtain ⟨b, hb⟩ := hmem id hid
    exact ⟨b, by simp [report_batch, hft, hrr, hb]⟩

theorem report_batch_run_exits (env : Env) (limit : Nat)
    (query_field git_path field_name value operation : String)
    (ids : List Int)
    (hvalid : git_path_is_valid git_path = true)
    (hq : env.queryResp (build_query query_field git_path)
      = QueryResp.success ids)
    (hlim : ids.length ≤ limit)
    (hrr : (run_reports env field_name value operation ids).2
      = Outcome.exited 1) :
    (report_batch env limit query_field git_path field_name value operation).2
      = Outcome.exited 1 := by
  have hft := find_tasks_success env limit query_field git_path ids hvalid hq hlim
  rcases h2 : run_reports env field_name value operation ids with ⟨tr2, out2⟩
  rw [h2] at hrr
  simp only at hrr
  subst hrr
  simp [report_batch, hft, h2]

theorem py_truthy_ne_none {o : Option String} (h : py_truthy o = true) :
    o ≠ none := by
  cases o
  · simp [py_truthy] at h
  · exact fun hc => Option.noConfusion hc


/-! ### Claim theorems -/

/-- C2: whenever the search result count strictly exceeds the configured
ceiling, the batch run terminates with exit code 1 and its request trace is
the search query alone — zero PATCH requests are sent, so no update reaches
any matched item. -/
theorem C2_over_limit_aborts (env : Env) (limit : Nat)
    (query_field git_path field_name value operation : String)
    (ids : List Int)
    (hvalid : git_path_is_valid git_path = true)
    (hq : env.queryResp (build_query query_field git_path)
      = QueryResp.success ids)
    (hover : ids.length > limit) :
    report_batch env limit query_field git_path field_name value operation
        = ([Request.query (build_query query_field git_path)],
           Outcome.exited 1) ∧
    ∀ id b, Request.patch id b
        ∉ (report_batch env limit query_field git_path field_name value
            operation).1 := by
  have hft := find_tasks_over_limit env limit query_field git_path ids hvalid
    hq hover
  refine ⟨by simp [report_batch, hft], ?_⟩
  intro id b
  simp [report_batch, hft]

/-- C2 witness: ceiling 1, search returns the two ids 101 and 102. -/
theorem C2_witness :
    (report_batch env_two_matches 1 "Custom.Branch" "repo/branchC" "fld" "v"
        "replace"
      = ([Request.query (build_query "Custom.Branch" "repo/branchC")],
         Outcome.exited 1)) ∧
    ∀ id b, Request.patch id b
        ∉ (report_batch env_two_matches 1 "Custom.Branch" "repo/branchC"
            "fld" "v" "replace").1 :=
  C2_over_limit_aborts env_two_matches 1 "Custom.Branch" "repo/branchC"
    "fld" "v" "replace" [101, 102] (by decide) rfl (by decide)

/-- C3 counterexample: this fragment contains a tab, which is whitespace,
yet `_find_tasks` does not reject it — the validity check tests only the
space character, so the WIQL query is issued over the network and the run
does not terminate with exit code 1. -/
theorem C3_counterexample :
    contains_whitespace "ab/cdefghi\tjk" = true ∧
    (find_tasks env_empty_search 1 "Custom.Branch" "ab/cdefghi\tjk").1
      = [Request.query (build_query "Custom.Branch" "ab/cdefghi\tjk")] ∧
    (find_tasks env_empty_search 1 "Custom.Branch" "ab/cdefghi\tjk").2
      ≠ Outcome.exited 1 := by
  decide

/-- C3 amended: every fragment of length below 10, or containing the space
character, or lacking the path separator "/", is rejected by `_find_tasks`
with exit code 1 and an empty request trace — no network request is issued.
(Whitespace other than the space character is not checked.) -/
theorem C3_invalid_rejected (env : Env) (limit : Nat)
    (query_field git_path : String)
    (h : git_path.data.length < GIT_PATH_MIN_LENGTH
        ∨ git_path.data.contains SPACE = true
        ∨ git_path.data.contains (Char.ofNat 47) = false) :
    find_tasks env limit query_field git_path = ([], Outcome.exited 1) := by
  have hv : git_path_is_valid git_path = false := by
    unfold git_path_is_valid
    split
    · rfl
    next hsl =>
      split
      · rfl
      next hsp =>
        split
        · rfl
        next hlen =>
          exfalso
          rcases h with h | h | h
          · exact hlen h
          · exact hsp h
          · simp only [Bool.not_eq_true] at hsl
            rw [h] at hsl
            simp at hsl
  simp [find_tasks, hv]

/-- C3 amended witness: the fragment "a/b" is too short and is rejected
before any request. -/
theorem C3_witness :
    find_tasks env_empty_search 1 "Custom.Branch" "a/b"
      = ([], Outcome.exited 1) :=
  C3_invalid_rejected env_empty_search 1 "Custom.Branch" "a/b"
    (Or.inl (by decide))

/-- C4 counterexample: the search succeeds with zero matching ids; no patch
is applied, but `report_batch` returns exit code 1, not the claimed 0. -/
theorem C4_counterexample :
    report_batch env_empty_search 1 "Custom.Branch" "repo/branchD" "fld" "v"
        "replace"
      = ([Request.query (build_query "Custom.Branch" "repo/branchD")],
         Outcome.normal 1) := by
  decide

/-- C4 amended: when the search yields zero matching ids the run does not
abort and applies no patch, but it counts as failure, not success:
`report_batch` returns exit code 1, because `set(results) == {0}` is false
for the empty result list. -/
theorem C4_zero_matches (env : Env) (limit : Nat)
    (query_field git_path field_name value operation : String)
    (hvalid : git_path_is_valid git_path = true)
    (hq : env.queryResp (build_query query_field git_path)
      = QueryResp.success []) :
    report_batch env limit query_field git_path field_name value operation
      = ([Request.query (build_query query_field git_path)],
         Outcome.normal 1) := by
  have hft := find_tasks_success env limit query_field git_path [] hvalid hq
    (by simp)
  simp [report_batch, hft, run_reports, set_eq_singleton_zero]

/-- C4 amended witness: a concrete empty search in batch mode. -/
theorem C4_witness :
    report_batch env_empty_search 1 "Custom.Branch" "repo/branchE" "fld" "v"
        "replace"
      = ([Request.query (build_query "Custom.Branch" "repo/branchE")],
         Outcome.normal 1) :=
  C4_zero_matches env_empty_search 1 "Custom.Branch" "repo/branchE" "fld"
    "v" "replace" (by decide) rfl

/-- C5: with operation "replace", the request trace of `report` is exactly
one PATCH whose body carries the supplied value verbatim; in particular no
GET is issued, so `_read_value` is never called. -/
theorem C5_replace_no_read (env : Env) (task_id field_name value : String) :
    report env task_id field_name value "replace"
      = ([Request.patch task_id
            ⟨"replace", "/fields/" ++ field_name, value⟩],
         patch_outcome env task_id) ∧
    ∀ i, Request.get i ∉ (report env task_id field_name value "replace").1 := by
  have h := report_of_ne_add env task_id field_name value "replace" (by decide)
  exact ⟨h, fun i => by simp [h]⟩

/-- C6: with operation "add", `report` reads the existing value first and
the PATCH body value is exactly the existing value, then the literal
separator "<br>==========<br>", then the new value; an empty existing value
yields the separator followed by the new value. -/
theorem C6_append_composition (env : Env) (task_id field_name value : String)
    (b : GetBody) (hb : env.getResp task_id = GetResp.success b) :
    report env task_id field_name value "add"
      = ([Request.get task_id,
          Request.patch task_id
            ⟨"add", "/fields/" ++ field_name,
             extract_field b field_name ++ "<br>==========<br>" ++ value⟩],
         patch_outcome env task_id) ∧
    (extract_field b field_name = "" →
      extract_field b field_name ++ "<br>==========<br>" ++ value
        = "<br>==========<br>" ++ value) := by
  constructor
  · simpa [separator] using report_of_add env task_id field_name value hb
  · intro h
    rw [h]
    congr 1

/-- C6 witness: existing value "old text" on the field "Custom.Log". -/
theorem C6_witness :
    report env_get_old "101" "Custom.Log" "new entry" "add"
      = ([Request.get "101",
          Request.patch "101"
            ⟨"add", "/fields/" ++ "Custom.Log",
             extract_field ⟨some [("Custom.Log", "old text")]⟩ "Custom.Log"
               ++ "<br>==========<br>" ++ "new entry"⟩],
         patch_outcome env_get_old "101") ∧
    (extract_field ⟨some [("Custom.Log", "old text")]⟩ "Custom.Log" = "" →
      extract_field ⟨some [("Custom.Log", "old text")]⟩ "Custom.Log"
          ++ "<br>==========<br>" ++ "new entry"
        = "<br>==========<br>" ++ "new entry") :=
  C6_append_composition env_get_old "101" "Custom.Log" "new entry"
    ⟨some [("Custom.Log", "old text")]⟩ rfl

/-- C7: when the GET succeeds but the requested field name is absent from
the fields mapping, `_read_value` returns the empty string normally — a
missing field is never an error. -/
theorem C7_missing_field_empty (env : Env) (task_id field_name : String)
    (fields : List (String × String))
    (hb : env.getResp task_id = GetResp.success ⟨some fields⟩)
    (habs : fields.lookup field_name = none) :
    (read_value env task_id field_name).2 = Outcome.normal "" := by
  simp [read_value, hb, extract_field, habs]

/-- C7 witness: the item holds only "Other.Field"; reading "Custom.Log"
yields the empty string. -/
theorem C7_witness :
    (read_value env_get_absent "101" "Custom.Log").2 = Outcome.normal "" :=
  C7_missing_field_empty env_get_absent "101" "Custom.Log"
    [("Other.Field", "x")] rfl (by decide)

/-- C10: a 2xx GET response whose JSON body lacks the "fields" key entirely
is treated exactly like an unset field: every KeyError path of the
extraction makes `_read_value` return the empty string instead of failing. -/
theorem C10_keyerror_empty (env : Env) (task_id field_name : String)
    (b : GetBody)
    (hb : env.getResp task_id = GetResp.success b)
    (h : b.fields = none
        ∨ ∃ fields, b.fields = some fields
            ∧ fields.lookup field_name = none) :
    (read_value env task_id field_name).2 = Outcome.normal "" := by
  rcases h with h | ⟨fields, hf, hl⟩
  · simp [read_value, hb, extract_field, h]
  · simp [read_value, hb, extract_field, hf, hl]

/-- C10 witness: a body with no "fields" key at all. -/
theorem C10_witness :
    (read_value env_empty_search "101" "Custom.Log").2
      = Outcome.normal "" :=
  C10_keyerror_empty env_empty_search "101" "Custom.Log" ⟨none⟩ rfl
    (Or.inl rfl)

/-- C1 counterexample: a batch run whose search succeeds with zero ids.
Every individual patch that was attempted returned success — none were
attempted — yet the exit code is 1, not 0: the claimed equivalence between
exit code 0 and all patches succeeding fails on the empty resolution,
because `set(results) == {0}` is false for the empty list. -/
theorem C1_counterexample :
    report_batch env_empty_search 1 "Custom.Branch" "repo/branchA" "fld" "v"
        "replace"
      = ([Request.query (build_query "Custom.Branch" "repo/branchA")],
         Outcome.normal 1) := by
  decide

/-- C1 amended: after resolve, a PATCH is attempted for every resolved id
with no early abort (given that no PATCH hits a connect timeout), and the
exit code is 0 iff the resolved id list is nonempty and every individual
patch returned success; the empty resolution yields exit code 1 even
though no patch failed. -/
theorem C1_amended (env : Env) (limit : Nat)
    (query_field git_path field_name value operation : String)
    (ids : List Int)
    (hvalid : git_path_is_valid git_path = true)
    (hq : env.queryResp (build_query query_field git_path)
      = QueryResp.success ids)
    (hlim : ids.length ≤ limit)
    (hget : operation = "add" →
      ∀ id ∈ ids, ∃ b, env.getResp (toString id) = GetResp.success b)
    (hnt : ∀ id ∈ ids, env.patchResp (toString id) ≠ PatchResp.connectTimeout) :
    (∀ id ∈ ids, ∃ b, Request.patch (toString id) b
        ∈ (report_batch env limit query_field git_path field_name value
            operation).1) ∧
    ((report_batch env limit query_field git_path field_name value
        operation).2 = Outcome.normal 0
      ↔ ids ≠ [] ∧ ∀ id ∈ ids,
          ∃ s, env.patchResp (toString id) = PatchResp.success s) := by
  obtain ⟨hsnd, hmem⟩ := report_batch_normal env limit query_field git_path
    field_name value operation ids hvalid hq hlim hget hnt
  refine ⟨hmem, ?_⟩
  have h1 : ((Outcome.normal (if set_eq_singleton_zero
        (ids.map fun id => patch_result env (toString id)) then 0 else 1)
          : Outcome Nat) = Outcome.normal 0)
      ↔ set_eq_singleton_zero
          (ids.map fun id => patch_result env (toString id)) = true := by
    by_cases hc : set_eq_singleton_zero
        (ids.map fun id => patch_result env (toString id)) = true
    · simp [hc]
    · simp [hc]
  rw [hsnd, h1, set_eq_singleton_zero_iff]
  constructor
  · rintro ⟨hne, hall⟩
    refine ⟨fun hnil => hne (by simp [hnil]), fun id hid => ?_⟩
    exact (patch_result_eq_zero_iff (hnt id hid)).1
      (hall _ (List.mem_map_of_mem _ hid))
  · rintro ⟨hne, hall⟩
    refine ⟨fun hnil => hne (by simpa using hnil), ?_⟩
    intro r hr
    obtain ⟨id, hid, rfl⟩ := List.mem_map.1 hr
    exact (patch_result_eq_zero_iff (hnt id hid)).2 (hall id hid)

/-- C1 amended witness: search returns ids 101, 205, 310 and the PATCH of
205 returns a non-2xx; patches are attempted for all three ids and the
exit-code equivalence holds. -/
theorem C1_amended_witness :
    (∀ id ∈ ([101, 205, 310] : List Int), ∃ b, Request.patch (toString id) b
        ∈ (report_batch env_batch_one_fail 3 "Custom.Branch" "repo/branchB"
            "fld" "v" "replace").1) ∧
    ((report_batch env_batch_one_fail 3 "Custom.Branch" "repo/branchB"
        "fld" "v" "replace").2 = Outcome.normal 0
      ↔ ([101, 205, 310] : List Int) ≠ []
        ∧ ∀ id ∈ ([101, 205, 310] : List Int),
            ∃ s, env_batch_one_fail.patchResp (toString id)
              = PatchResp.success s) :=
  C1_amended env_batch_one_fail 3 "Custom.Branch" "repo/branchB" "fld" "v"
    "replace" [101, 205, 310] (by decide) rfl (by decide)
    (fun hop => absurd hop (by decide))
    (by decide)

/-- C8: a connect timeout on the PATCH of any resolved id, at any position
in the batch, terminates the whole batch run with exit code 1 (part one);
any other HTTP-level failure on the PATCH of any resolved id, at any
position, is non-fatal in batch mode — the run records 1 for that id, the
loop continues, and every resolved id, the ones after the failing id
included, is still patched (part two). -/
theorem C8_patch_timeout_vs_failure :
    (∀ (env : Env) (limit : Nat)
        (query_field git_path field_name value operation : String)
        (pre : List Int) (i : Int) (post : List Int),
      git_path_is_valid git_path = true →
      env.queryResp (build_query query_field git_path)
          = QueryResp.success (pre ++ i :: post) →
      (pre ++ i :: post).length ≤ limit →
      (operation = "add" → ∀ id ∈ pre ++ i :: post,
          ∃ b, env.getResp (toString id) = GetResp.success b) →
      (∀ j ∈ pre, env.patchResp (toString j) ≠ PatchResp.connectTimeout) →
      env.patchResp (toString i) = PatchResp.connectTimeout →
      (report_batch env limit query_field git_path field_name value
          operation).2 = Outcome.exited 1) ∧
    (∀ (env : Env) (limit : Nat)
        (query_field git_path field_name value operation : String)
        (pre : List Int) (i : Int) (post : List Int),
      git_path_is_valid git_path = true →
      env.queryResp (build_query query_field git_path)
          = QueryResp.success (pre ++ i :: post) →
      (pre ++ i :: post).length ≤ limit →
      (operation = "add" → ∀ id ∈ pre ++ i :: post,
          ∃ b, env.getResp (toString id) = GetResp.success b) →
      env.patchResp (toString i) = PatchResp.failure →
      (∀ j ∈ pre, env.patchResp (toString j) ≠ PatchResp.connectTimeout) →
      (∀ j ∈ post, env.patchResp (toString j) ≠ PatchResp.connectTimeout) →
      (report_batch env limit query_field git_path field_name value
          operation).2 = Outcome.normal 1 ∧
      ∀ j ∈ pre ++ i :: post, ∃ b, Request.patch (toString j) b
          ∈ (report_batch env limit query_field git_path field_name value
              operation).1) := by
  constructor
  · intro env limit query_field git_path field_name value operation pre i post
      hvalid hq hlim hget hpre hi
    exact report_batch_run_exits env limit query_field git_path field_name
      value operation (pre ++ i :: post) hvalid hq hlim
      (run_reports_exits env field_name value operation pre i post hget hpre hi)
  · intro env limit query_field git_path field_name value operation pre i post
      hvalid hq hlim hget hfail hpre hpost
    have hnt : ∀ j ∈ pre ++ i :: post,
        env.patchResp (toString j) ≠ PatchResp.connectTimeout := by
      intro j hj
      rcases List.mem_append.1 hj with hj | hj
      · exact hpre j hj
      · rcases List.mem_cons.1 hj with hj | hj
        · subst hj
          rw [hfail]
          exact fun hc => PatchResp.noConfusion hc
        · exact hpost j hj
    obtain ⟨hsnd, hmem⟩ := report_batch_normal env limit query_field git_path
      field_name value operation (pre ++ i :: post) hvalid hq hlim hget hnt
    have hpr : patch_result env (toString i) = 1 := by
      unfold patch_result
      rw [hfail]
    have hfalse : ¬ set_eq_singleton_zero
        ((pre ++ i :: post).map fun id => patch_result env (toString id))
          = true := by
      rw [set_eq_singleton_zero_iff]
      rintro ⟨-, hall⟩
      have h0 := hall (patch_result env (toString i))
        (List.mem_map_of_mem _
          (List.mem_append_right _ (List.mem_cons_self i post)))
      rw [hpr] at h0
      exact one_ne_zero h0
    exact ⟨by rw [hsnd, if_neg hfalse], hmem⟩

/-- C8 witness: part one at a service whose PATCH of id 205 times out
(ids 101, 205, 310), part two at a service whose PATCH of the mid-list id
205 returns a non-2xx while 101, 205 and 310 are all still patched. -/
theorem C8_witness :
    ((report_batch env_patch_timeout 3 "Custom.Branch" "repo/branchF" "fld"
        "v" "replace").2 = Outcome.exited 1) ∧
    ((report_batch env_batch_one_fail 3 "Custom.Branch" "repo/branchG" "fld"
        "v" "replace").2 = Outcome.normal 1 ∧
      ∀ j ∈ ([101] ++ 205 :: [310] : List Int), ∃ b,
        Request.patch (toString j) b
          ∈ (report_batch env_batch_one_fail 3 "Custom.Branch" "repo/branchG"
              "fld" "v" "replace").1) :=
  ⟨C8_patch_timeout_vs_failure.1 env_patch_timeout 3 "Custom.Branch"
      "repo/branchF" "fld" "v" "replace" [101] 205 [310] (by decide) rfl
      (by decide) (fun hop => absurd hop (by decide)) (by decide) (by decide),
   C8_patch_timeout_vs_failure.2 env_batch_one_fail 3 "Custom.Branch"
      "repo/branchG" "fld" "v" "replace" [101] 205 [310] (by decide) rfl
      (by decide) (fun hop => absurd hop (by decide)) (by decide) (by decide)
      (by decide)⟩

/-- C9: unless exactly one of the two selection modes is supplied — an
explicit task id, or both the filter field and the fragment — the dispatch
is a usage error: it returns exit code 1 and issues zero network requests
of any kind. -/
theorem C9_usage_guard (env : Env) (args : Args)
    (h : ¬ exactly_one_mode args) :
    main_run env args = ([], 1) := by
  unfold main_run
  by_cases h1 : (py_truthy args.task_id
      && (args.filter_by == args.git_path && args.git_path == none)) = true
  · exfalso
    apply h
    rw [Bool.and_eq_true, Bool.and_eq_true] at h1
    obtain ⟨ht, hfg, hgn⟩ := h1
    have hg : args.git_path = none := by simpa using hgn
    have hfg2 : args.filter_by = args.git_path := by simpa using hfg
    have hf : args.filter_by = none := hfg2.trans hg
    exact Or.inl ⟨py_truthy_ne_none ht, fun hm => hm.1 hf⟩
  · rw [if_neg h1]
    by_cases h2 : ((py_truthy args.filter_by && py_truthy args.git_path)
        && args.task_id == none) = true
    · exfalso
      apply h
      rw [Bool.and_eq_true, Bool.and_eq_true] at h2
      obtain ⟨⟨hf, hg⟩, ht⟩ := h2
      refine Or.inr ⟨⟨py_truthy_ne_none hf, py_truthy_ne_none hg⟩,
        fun hm => hm ?_⟩
      simpa using ht
    · rw [if_neg h2]

/-- C9 witness: both an explicit id and the filter pair supplied at once is
a usage error with no requests. -/
theorem C9_witness :
    main_run env_empty_search args_both_modes = ([], 1) :=
  C9_usage_guard env_empty_search args_both_modes (by
    unfold exactly_one_mode mode_id_supplied mode_filter_supplied
      args_both_modes
    simp)
